import Mathlib

/-!
Verification of the natural-language specification of `src/main.py`
(natural-language database query interface) against a shallow embedding
of its string-processing and control-flow core.

Python strings are embedded as `List Char`; each Python helper function
of `main.py` is translated definition-by-definition below, keeping the
source names.  External effects (the psycopg database session and the
OpenAI generation oracle) are passed in as explicit function parameters,
and the observable effects of a call (the text surfaced to the user, the
query texts handed to the database layer, the returned pair) are made
explicit fields of the result.
-/

set_option maxHeartbeats 1600000
set_option maxRecDepth 16384

/-- Embedding of a Python `str` as its list of characters. -/
abbrev PyStr := List Char

/-- The ASCII whitespace characters stripped by Python `str.strip()` /
`lstrip()` on the inputs considered here: space, tab, newline, carriage
return, vertical tab, form feed. -/
def pyIsSpace (c : Char) : Bool :=
  c == ' ' || c == '\t' || c == '\n' || c == '\r' || c == Char.ofNat 11 || c == Char.ofNat 12

/-- Python `s.lstrip()`: drop leading whitespace. -/
def lstripWS (s : PyStr) : PyStr := s.dropWhile pyIsSpace

/-- Drop trailing characters satisfying `p` (helper for Python `rstrip`). -/
def rstripOn (p : Char → Bool) (s : PyStr) : PyStr :=
  (s.reverse.dropWhile p).reverse

/-- Python `s.rstrip()` restricted to whitespace. -/
def rstripWS (s : PyStr) : PyStr := rstripOn pyIsSpace s

/-- Python `s.strip()`: drop leading and trailing whitespace. -/
def pyStrip (s : PyStr) : PyStr := rstripWS (lstripWS s)

/-- The backtick character. -/
def btChar : Char := Char.ofNat 96

/-- Test for the backtick character. -/
def isBt (c : Char) : Bool := c == btChar

/-- Python `s.lstrip("`")`: drop leading backticks. -/
def lstripBT (s : PyStr) : PyStr := s.dropWhile isBt

/-- Python `s.rstrip("`")`: drop trailing backticks. -/
def rstripBT (s : PyStr) : PyStr := rstripOn isBt s

/-- Python `s.startswith(p)`: `beginsWith s p` is true when `p` is an
initial segment of `s`. -/
def beginsWith : PyStr → PyStr → Bool
  | _, [] => true
  | [], _ :: _ => false
  | c :: s, p :: ps => c == p && beginsWith s ps

/-- Python `sub in s`: substring containment. -/
def pyIn (sub : PyStr) : PyStr → Bool
  | [] => sub.isEmpty
  | c :: rest => beginsWith (c :: rest) sub || pyIn sub rest

/-- Python `s.split("\n")`. -/
def splitOnNl : PyStr → List PyStr
  | [] => [[]]
  | '\n' :: rest => [] :: splitOnNl rest
  | c :: rest =>
    match splitOnNl rest with
    | [] => [[c]]
    | l :: ls => (c :: l) :: ls

/-- Fueled worker for `replaceAll`; the fuel is an upper bound on the
number of characters of `s` still to be scanned, so `replaceAll` below
always supplies enough. -/
def replaceAllGo (pat rep : PyStr) : Nat → PyStr → PyStr
  | 0, s => s
  | fuel + 1, s =>
    match s with
    | [] => []
    | c :: rest =>
      if !pat.isEmpty && beginsWith (c :: rest) pat then
        rep ++ replaceAllGo pat rep fuel ((c :: rest).drop pat.length)
      else
        c :: replaceAllGo pat rep fuel rest

/-- Python `s.replace(pat, rep)` for a nonempty `pat`: replace every
occurrence of `pat` in `s`, scanning left to right. -/
def replaceAll (pat rep s : PyStr) : PyStr := replaceAllGo pat rep s.length s

/-- The triple-backtick fence marker used by `clean_sql_query`. -/
def fence : PyStr := "```".data

/-- The language tag removed by `clean_sql_query`. -/
def sqlTag : PyStr := "sql".data

/-- The keyword demanded by `validate_query`. -/
def selTok : PyStr := "SELECT".data

/-- `clean_sql_query` of `main.py` (lines 158-176): strip the text;
if it starts with a triple-backtick fence, drop leading backticks, drop
an immediately following `sql` language tag, drop leading whitespace,
drop trailing backticks and strip again. -/
def clean_sql_query (sql_query : PyStr) : PyStr :=
  let query := pyStrip sql_query
  if beginsWith query fence then
    let q1 := lstripBT query
    let q2 := if beginsWith q1 sqlTag then q1.drop 3 else q1
    let q3 := lstripWS q2
    pyStrip (rstripBT q3)
  else
    query

/-- `validate_query` of `main.py` (lines 179-188): sanitize the input
with `clean_sql_query`, strip and uppercase it, and accept exactly when
the result starts with `SELECT`. -/
def validate_query (sql_query : PyStr) : Bool :=
  let cleaned_query := clean_sql_query sql_query
  let query_upper := (pyStrip cleaned_query).map Char.toUpper
  beginsWith query_upper selTok

/-- Outcome of handing one query text to the database layer
(`psycopg.connect` + `cursor.execute` inside `execute_query`'s `try`):
`err` models a raised `psycopg.Error` (connection or execution failure),
`noDesc` a statement that completes with `cursor.description = None`,
`rows cols res` a completed statement returning column names and rows
(row values embedded by their textual representation). -/
inductive DBOutcome where
  | err : DBOutcome
  | noDesc : DBOutcome
  | rows : List PyStr → List (List PyStr) → DBOutcome

/-- Observable behaviour of one `execute_query` call:
`rejectedSurfaced` is the query text printed to the user in the
rejection message (if any), `dbCalls` the list of query texts submitted
to the database layer, and `result` the returned `(columns, results)`
pair, with Python's `(None, None)` embedded as `none`. -/
structure ExecTrace where
  rejectedSurfaced : Option PyStr
  dbCalls : List PyStr
  result : Option (List PyStr × List (List PyStr))

/-- `execute_query` of `main.py` (lines 191-228), parameterized by the
database layer `db`.  It sanitizes its argument once, checks
`validate_query` on the sanitized text (which re-sanitizes internally),
and on success submits the once-sanitized text; on rejection it prints
the rejected text and returns `(None, None)` with no database call. -/
def execute_query (db : PyStr → DBOutcome) (sql_query : PyStr) : ExecTrace :=
  let cleaned_sql := clean_sql_query sql_query
  if validate_query cleaned_sql then
    { rejectedSurfaced := none
      dbCalls := [cleaned_sql]
      result :=
        match db cleaned_sql with
        | DBOutcome.err => none
        | DBOutcome.noDesc => none
        | DBOutcome.rows cols res => some (cols, res) }
  else
    { rejectedSurfaced := some cleaned_sql, dbCalls := [], result := none }

/-- `format_results` of `main.py` (lines 231-244): the fixed sentence on
an empty row list, otherwise the accumulation `formatted += "\n"` then
`formatted += f"{col}: {val}\n"` over `zip(columns, row)` for each row. -/
def format_results (columns : List PyStr) (results : List (List PyStr)) : PyStr :=
  if results = [] then ("No results found.".data)
  else
    results.foldl
      (fun formatted row =>
        (columns.zip row).foldl
          (fun acc cv => acc ++ cv.1 ++ (": ".data) ++ cv.2 ++ ("\n".data))
          (formatted ++ ("\n".data)))
      []

/-- The block that `format_results` contributes for a single row: the
concatenation of `col ++ ": " ++ val ++ "\n"` over the positional zip of
columns and row values. -/
def rowBlock (columns row : List PyStr) : PyStr :=
  ((columns.zip row).map (fun cv => cv.1 ++ (": ".data) ++ cv.2 ++ ("\n".data))).flatten

/-- `get_two_shot_examples` of `main.py` (lines 79-122): if the lowered
schema text contains the three fingerprint substrings, return the fixed
domain example block; otherwise collect the table names from lines
starting with `Table:` and synthesize generic examples. -/
def get_two_shot_examples (schema : PyStr) : PyStr :=
  let low := schema.map Char.toLower
  let has_student_request := pyIn ("student_request".data) low
  let has_ta := pyIn ("ta".data) low
  let has_person := pyIn ("person".data) low
  let examples := ("\nEXAMPLES (for reference on how to query this database):\n".data)
  if has_student_request && has_ta && has_person then
    examples ++ ("\nExample 1:".data)
      ++ ("\nQuestion: How many students are waiting for help?".data)
      ++ ("\nSQL: SELECT COUNT(*) as waiting_count FROM student_request sr WHERE NOT EXISTS (SELECT 1 FROM ta_response tr WHERE tr.student_request = sr.id);".data)
      ++ ("\nExample 2:".data)
      ++ ("\nQuestion: Show me the names of active TAs".data)
      ++ ("\nSQL: SELECT p.first_name, p.last_name FROM person p JOIN ta t ON p.byu_id = t.byu_id WHERE t.active_status = TRUE;".data)
  else
    let tables :=
      (splitOnNl schema).foldl
        (fun acc line =>
          if beginsWith line ("Table:".data) then
            acc ++ [pyStrip (replaceAll ("Table: ".data) [] line)]
          else acc)
        []
    match tables with
    | [] => examples
    | t0 :: rest =>
      let ex1 := examples ++ ("\nExample 1:".data)
        ++ ("\nQuestion: Show all records from ".data) ++ t0
        ++ ("\nSQL: SELECT * FROM ".data) ++ t0 ++ (" LIMIT 10;".data)
      match rest with
      | _ :: _ =>
        ex1 ++ ("\nExample 2:".data)
          ++ ("\nQuestion: Count records in ".data) ++ t0
          ++ ("\nSQL: SELECT COUNT(*) as total FROM ".data) ++ t0 ++ (";".data)
      | [] =>
        ex1 ++ ("\nExample 2:".data)
          ++ ("\nQuestion: How many records are in ".data) ++ t0 ++ ("?".data)
          ++ ("\nSQL: SELECT COUNT(*) as record_count FROM ".data) ++ t0 ++ (";".data)

/-- State of the database metadata source seen by
`get_database_schema`: either unreachable (any `psycopg.Error` during
connection or the metadata queries) or available with a rendered schema
text. -/
inductive DBMeta where
  | unreachable : DBMeta
  | available : PyStr → DBMeta
deriving DecidableEq

/-- Observable outcome of `get_database_schema` of `main.py`
(lines 27-76): on any `psycopg.Error` it prints the connection error and
calls `sys.exit(1)` (modeled `fatal 1`); otherwise it returns the
rendered schema text. -/
inductive SchemaOutcome where
  | fatal : Nat → SchemaOutcome
  | ok : PyStr → SchemaOutcome
deriving DecidableEq

/-- `get_database_schema` of `main.py` restricted to its observable
control flow: schema text on success, report-and-`sys.exit(1)` on any
database error. -/
def get_database_schema : DBMeta → SchemaOutcome
  | DBMeta.unreachable => SchemaOutcome.fatal 1
  | DBMeta.available s => SchemaOutcome.ok s

/-- Observable outcome of one `process_question` call: `sysExit c` when
a `SystemExit` with code `c` escapes (raised by `get_database_schema`),
`execFailed` when `execute_query` returned `(None, None)` and the fixed
message `Error: Could not execute the query. Only SELECT queries are
allowed.` was printed, `answered s` when the pipeline reached answer
generation with formatted results `s`. -/
inductive PQOutcome where
  | sysExit : Nat → PQOutcome
  | execFailed : PQOutcome
  | answered : PyStr → PQOutcome
deriving DecidableEq

/-- `process_question` of `main.py` (lines 271-309), with the prompt
construction and generation oracle absorbed into the opaque
`gen : question → schema → raw SQL text` (the oracle is opaque on the
prompt, so this composition loses nothing observable), and the database
layer passed as `db`.  Returns the outcome together with the list of
query texts submitted to the database layer.  Note the source passes the
raw `sql_query` (not the displayed `cleaned_sql`) to `execute_query`. -/
def process_question (meta : DBMeta) (gen : PyStr → PyStr → PyStr)
    (db : PyStr → DBOutcome) (question : PyStr) : PQOutcome × List PyStr :=
  match get_database_schema meta with
  | SchemaOutcome.fatal c => (PQOutcome.sysExit c, [])
  | SchemaOutcome.ok schema =>
    let sql_query := gen question schema
    let t := execute_query db sql_query
    match t.result with
    | none => (PQOutcome.execFailed, t.dbCalls)
    | some (cols, res) => (PQOutcome.answered (format_results cols res), t.dbCalls)

/-- Effect of one iteration of `main`'s interactive loop
(lines 347-361) on the process: the loop body catches
`KeyboardInterrupt` and `Exception`, but `SystemExit` (raised by
`sys.exit`) derives from `BaseException`, not `Exception`, so it escapes
both handlers and terminates the process; every other outcome of
`process_question` leaves the loop running. -/
inductive LoopAction where
  | processTerminated : Nat → LoopAction
  | loopContinues : LoopAction
deriving DecidableEq

/-- One iteration of the interactive loop of `main` applied to a
question: process it and either terminate the process (escaping
`SystemExit`) or continue looping. -/
def interactive_step (meta : DBMeta) (gen : PyStr → PyStr → PyStr)
    (db : PyStr → DBOutcome) (question : PyStr) : LoopAction :=
  match (process_question meta gen db question).1 with
  | PQOutcome.sysExit c => LoopAction.processTerminated c
  | _ => LoopAction.loopContinues

/-! ## General lemmas about the Python string primitives -/

theorem rstripOn_idem (p : Char → Bool) (s : PyStr) :
    rstripOn p (rstripOn p s) = rstripOn p s := by
  show List.rdropWhile p (List.rdropWhile p s) = List.rdropWhile p s
  exact List.rdropWhile_idempotent p s

theorem rstripOn_append_exists (p : Char → Bool) (s : PyStr) :
    ∃ t, rstripOn p s ++ t = s := by
  refine ⟨(s.reverse.takeWhile p).reverse, ?_⟩
  rw [rstripOn, ← List.reverse_append, List.takeWhile_append_dropWhile, List.reverse_reverse]

theorem dropWhile_after_rstripOn (p q : Char → Bool) (u : PyStr) (h : u.dropWhile p = u) :
    (rstripOn q u).dropWhile p = rstripOn q u := by
  obtain ⟨t, ht⟩ := rstripOn_append_exists q u
  cases hr : rstripOn q u with
  | nil => simp
  | cons c cs =>
    have hu : u = c :: (cs ++ t) := by rw [← ht, hr]; simp
    have hc : ¬ (p c = true) := by
      intro hb
      rw [hu, List.dropWhile_cons_of_pos hb] at h
      have hle : ((cs ++ t).dropWhile p).length ≤ (cs ++ t).length :=
        (List.dropWhile_suffix p).length_le
      rw [h] at hle
      simp only [List.length_cons] at hle
      omega
    exact List.dropWhile_cons_of_neg hc

theorem pyStrip_idem (s : PyStr) : pyStrip (pyStrip s) = pyStrip s := by
  show rstripWS (lstripWS (rstripWS (lstripWS s))) = rstripWS (lstripWS s)
  have h1 : lstripWS (rstripWS (lstripWS s)) = rstripWS (lstripWS s) :=
    dropWhile_after_rstripOn pyIsSpace pyIsSpace (lstripWS s)
      (List.dropWhile_idempotent pyIsSpace s)
  rw [h1]
  exact rstripOn_idem pyIsSpace (lstripWS s)

/-- The output of `clean_sql_query` is always a stripped string: both
branches of the source end with a `strip()`. -/
theorem clean_sql_query_stripped (s : PyStr) :
    pyStrip (clean_sql_query s) = clean_sql_query s := by
  simp only [clean_sql_query]
  split
  · exact pyStrip_idem _
  · exact pyStrip_idem _

/-- `clean_sql_query` is the identity on stripped text that does not
start with a fence. -/
theorem clean_sql_query_eq_self (u : PyStr) (h1 : pyStrip u = u)
    (h2 : beginsWith u fence = false) : clean_sql_query u = u := by
  simp [clean_sql_query, h1, h2]

/-! ## Segment (contiguous-substring) lemmas -/

theorem seg_refl (l : PyStr) : ∃ pre post, pre ++ l ++ post = l :=
  ⟨[], [], by simp⟩

theorem seg_trans {a b c : PyStr} (h1 : ∃ pre post, pre ++ b ++ post = a)
    (h2 : ∃ pre post, pre ++ c ++ post = b) : ∃ pre post, pre ++ c ++ post = a := by
  obtain ⟨p1, q1, e1⟩ := h1
  obtain ⟨p2, q2, e2⟩ := h2
  exact ⟨p1 ++ p2, q2 ++ q1, by rw [← e1, ← e2]; simp [List.append_assoc]⟩

theorem seg_lstripWS (s : PyStr) : ∃ pre post, pre ++ lstripWS s ++ post = s :=
  ⟨s.takeWhile pyIsSpace, [], by simp [lstripWS, List.takeWhile_append_dropWhile]⟩

theorem seg_lstripBT (s : PyStr) : ∃ pre post, pre ++ lstripBT s ++ post = s :=
  ⟨s.takeWhile isBt, [], by simp [lstripBT, List.takeWhile_append_dropWhile]⟩

theorem seg_rstripWS (s : PyStr) : ∃ pre post, pre ++ rstripWS s ++ post = s := by
  obtain ⟨t, ht⟩ := rstripOn_append_exists pyIsSpace s
  exact ⟨[], t, by simpa using ht⟩

theorem seg_rstripBT (s : PyStr) : ∃ pre post, pre ++ rstripBT s ++ post = s := by
  obtain ⟨t, ht⟩ := rstripOn_append_exists isBt s
  exact ⟨[], t, by simpa using ht⟩

theorem seg_pyStrip (s : PyStr) : ∃ pre post, pre ++ pyStrip s ++ post = s :=
  seg_trans (seg_lstripWS s) (seg_rstripWS (lstripWS s))

theorem seg_drop (n : Nat) (l : PyStr) : ∃ pre post, pre ++ l.drop n ++ post = l :=
  ⟨l.take n, [], by simp⟩

/-! ## Claim theorems -/

/-- Claim C9: for every input string `s`, `clean_sql_query s` is a
contiguous substring of `s` — the sanitizer removes characters only from
the beginning and the end of the text, never from the interior. -/
theorem clean_sql_query_within_input (s : PyStr) :
    ∃ pre post, pre ++ clean_sql_query s ++ post = s := by
  simp only [clean_sql_query]
  split
  · split
    · refine seg_trans (seg_pyStrip s) ?_
      refine seg_trans (seg_lstripBT (pyStrip s)) ?_
      refine seg_trans (seg_drop 3 (lstripBT (pyStrip s))) ?_
      refine seg_trans (seg_lstripWS ((lstripBT (pyStrip s)).drop 3)) ?_
      exact seg_trans (seg_rstripBT _) (seg_pyStrip _)
    · refine seg_trans (seg_pyStrip s) ?_
      refine seg_trans (seg_lstripBT (pyStrip s)) ?_
      refine seg_trans (seg_lstripWS (lstripBT (pyStrip s))) ?_
      exact seg_trans (seg_rstripBT _) (seg_pyStrip _)
  · exact seg_pyStrip s

/-- Claim C3 counterexample: `clean_sql_query` is not idempotent.  On
the raw output "```sql```x" one pass yields "```x" (the removed `sql`
tag exposes a new leading fence) and a second pass yields "x". -/
theorem clean_sql_query_not_idempotent :
    clean_sql_query (clean_sql_query ("```sql```x".data)) ≠
      clean_sql_query ("```sql```x".data) := by decide

/-- Claim C3 (amended): `clean_sql_query` is idempotent on every input
whose sanitized result does not itself begin with a triple-backtick
fence; on such inputs sanitizing already-clean text is a no-op. -/
theorem clean_sql_query_idem_of_no_fence (s : PyStr)
    (h : beginsWith (clean_sql_query s) fence = false) :
    clean_sql_query (clean_sql_query s) = clean_sql_query s :=
  clean_sql_query_eq_self _ (clean_sql_query_stripped s) h

/-- Witness for `clean_sql_query_idem_of_no_fence` at a concrete
well-formed fenced input. -/
theorem clean_sql_query_idem_of_no_fence_witness :
    beginsWith (clean_sql_query ("```sql\nSELECT 1;\n```".data)) fence = false ∧
      clean_sql_query (clean_sql_query ("```sql\nSELECT 1;\n```".data)) =
        clean_sql_query ("```sql\nSELECT 1;\n```".data) :=
  ⟨by decide, clean_sql_query_idem_of_no_fence _ (by decide)⟩

theorem selTok_eq : selTok = ['S', 'E', 'L', 'E', 'C', 'T'] := rfl

theorem fence_eq : fence = [btChar, btChar, btChar] := by decide

/-- Any text that, stripped and uppercased, begins with `SELECT` is
accepted by `validate_query`: such text cannot begin with a backtick, so
the internal re-sanitization leaves it unchanged. -/
theorem validate_query_of_select_head (t : PyStr)
    (h : beginsWith ((pyStrip t).map Char.toUpper) selTok = true) :
    validate_query t = true := by
  have hfence : beginsWith (pyStrip t) fence = false := by
    cases hu : pyStrip t with
    | nil =>
      rw [hu] at h
      exact absurd h (by decide)
    | cons c cs =>
      rw [hu, selTok_eq] at h
      simp only [List.map_cons, beginsWith, Bool.and_eq_true, beq_iff_eq] at h
      have hcS : Char.toUpper c = 'S' := h.1
      have hcb : (c == btChar) = false := by
        by_cases hb : c = btChar
        · subst hb
          exact absurd hcS (by decide)
        · simp [hb]
      rw [fence_eq]
      simp [beginsWith, hcb]
  have hclean : clean_sql_query t = pyStrip t := by
    simp [clean_sql_query, hfence]
  simp only [validate_query, hclean, pyStrip_idem]
  exact h

/-- Claim C2 counterexample: the claimed iff fails.  The validator
accepts the fenced text "```sql\nselect 1;\n```" although that text,
uppercased and stripped, does not begin with `SELECT` (the validator
first re-sanitizes its input). -/
theorem validate_query_accepts_fenced_input :
    validate_query ("```sql\nselect 1;\n```".data) = true ∧
      beginsWith ((pyStrip ("```sql\nselect 1;\n```".data)).map Char.toUpper) selTok = false := by
  decide

/-- Claim C2 (amended): every text that, uppercased and stripped, begins
with `SELECT` is accepted, but the converse fails because the validator
sanitizes its input first: it accepts `t` exactly when
`clean_sql_query t`, stripped and uppercased, begins with `SELECT`.
It rejects "DROP TABLE foo;" and "UPDATE foo SET x=1;" and accepts
"SELECT * FROM foo;" and "select 1;". -/
theorem validate_query_characterization :
    (∀ t : PyStr, beginsWith ((pyStrip t).map Char.toUpper) selTok = true →
        validate_query t = true)
    ∧ (∀ t : PyStr, validate_query t = true ↔
        beginsWith ((pyStrip (clean_sql_query t)).map Char.toUpper) selTok = true)
    ∧ validate_query ("DROP TABLE foo;".data) = false
    ∧ validate_query ("UPDATE foo SET x=1;".data) = false
    ∧ validate_query ("SELECT * FROM foo;".data) = true
    ∧ validate_query ("select 1;".data) = true :=
  ⟨validate_query_of_select_head, fun _ => Iff.rfl, by decide, by decide, by decide, by decide⟩

/-- Witness for `validate_query_characterization` at a concrete
lowercase SELECT query with leading whitespace. -/
theorem validate_query_characterization_witness :
    validate_query ("  select name from person;".data) = true :=
  validate_query_characterization.1 _ (by decide)

/-- Claim C1 (code bug): on the raw oracle output "```sql```sql SELECT 1",
`execute_query` submits the once-sanitized text "```sql SELECT 1" to the
database layer (validation passes because `validate_query` re-sanitizes),
and that submitted text, case-folded and leading-whitespace-stripped,
does not begin with the token SELECT. -/
theorem execute_query_submits_nonselect_text :
    (execute_query (fun _ => DBOutcome.rows [] []) ("```sql```sql SELECT 1".data)).dbCalls =
        [("```sql SELECT 1".data)] ∧
      beginsWith ((pyStrip ("```sql SELECT 1".data)).map Char.toUpper) selTok = false := by
  decide

/-- Claim C6 (code bug): for the input "```sql```sql select 2;" the
sanitized text fails the SELECT-prefix check, yet `execute_query`
attempts the database call anyway and surfaces nothing to the user. -/
theorem execute_query_calls_db_after_failed_check :
    beginsWith ((pyStrip (clean_sql_query ("```sql```sql select 2;".data))).map Char.toUpper)
        selTok = false ∧
      (execute_query (fun _ => DBOutcome.rows [] []) ("```sql```sql select 2;".data)).dbCalls ≠ [] ∧
      (execute_query (fun _ => DBOutcome.rows [] []) ("```sql```sql select 2;".data)).rejectedSurfaced
        = none := by
  decide

/-- Claim C4 counterexample: with the database unreachable, one
iteration of the interactive loop terminates the whole process
(`get_database_schema` raises `SystemExit`, which `except Exception`
does not catch); the loop does not continue. -/
theorem interactive_loop_dies_on_db_failure :
    interactive_step DBMeta.unreachable (fun _ _ => []) (fun _ => DBOutcome.err)
        ("how many orders are there".data) = LoopAction.processTerminated 1 ∧
      interactive_step DBMeta.unreachable (fun _ _ => []) (fun _ => DBOutcome.err)
        ("how many orders are there".data) ≠ LoopAction.loopContinues :=
  ⟨rfl, by decide⟩

/-- Claim C4 (amended): when the database is unreachable or the schema
metadata query fails, the error is reported and the process exits with
status 1, whatever the generation oracle, database behaviour and
question; the interactive loop does not continue. -/
theorem schema_failure_terminates_process (gen : PyStr → PyStr → PyStr)
    (db : PyStr → DBOutcome) (question : PyStr) :
    interactive_step DBMeta.unreachable gen db question = LoopAction.processTerminated 1 := rfl

/-- The second component of `process_question` (the database call trace)
is exactly the call trace of the inner `execute_query`. -/
theorem process_question_dbCalls (schema : PyStr) (gen : PyStr → PyStr → PyStr)
    (db : PyStr → DBOutcome) (q : PyStr) :
    (process_question (DBMeta.available schema) gen db q).2 =
      (execute_query db (gen q schema)).dbCalls := by
  simp only [process_question, get_database_schema]
  rcases h : (execute_query db (gen q schema)).result with _ | ⟨c, r⟩ <;> simp [h]

/-- When the sanitized query passes validation, `execute_query` submits
exactly the sanitized text, once, to the database layer. -/
theorem execute_query_dbCalls_of_valid (db : PyStr → DBOutcome) (s : PyStr)
    (h : validate_query (clean_sql_query s) = true) :
    (execute_query db s).dbCalls = [clean_sql_query s] := by
  simp [execute_query, h]

/-- Claim C5: the fenced oracle output sanitizes to exactly
"SELECT COUNT(*) FROM orders;", the validator accepts it, and the
pipeline submits exactly that sanitized text (and nothing else) to the
database layer, for every database behaviour, schema and question. -/
theorem pipeline_fenced_select_end_to_end :
    clean_sql_query ("```sql\nSELECT COUNT(*) FROM orders;\n```".data) =
        ("SELECT COUNT(*) FROM orders;".data)
    ∧ validate_query ("```sql\nSELECT COUNT(*) FROM orders;\n```".data) = true
    ∧ ∀ (db : PyStr → DBOutcome) (schema question : PyStr),
        (process_question (DBMeta.available schema)
            (fun _ _ => ("```sql\nSELECT COUNT(*) FROM orders;\n```".data)) db question).2 =
          [("SELECT COUNT(*) FROM orders;".data)] := by
  refine ⟨by decide, by decide, ?_⟩
  intro db schema question
  rw [process_question_dbCalls]
  rw [execute_query_dbCalls_of_valid db _ (by decide)]
  decide

/-- Claim C10: `execute_query` returns the indistinguishable pair
`(None, None)` when validation fails, when the database layer raises,
and when execution completes with no result description; and whenever it
returns that pair the caller `process_question` reports the single fixed
failure message. -/
theorem execute_query_conflates_failures :
    (∀ (db : PyStr → DBOutcome) (s : PyStr), validate_query (clean_sql_query s) = false →
        (execute_query db s).result = none)
    ∧ (∀ s : PyStr, validate_query (clean_sql_query s) = true →
        (execute_query (fun _ => DBOutcome.err) s).result = none)
    ∧ (∀ s : PyStr, validate_query (clean_sql_query s) = true →
        (execute_query (fun _ => DBOutcome.noDesc) s).result = none)
    ∧ (∀ (schema : PyStr) (gen : PyStr → PyStr → PyStr) (db : PyStr → DBOutcome) (q : PyStr),
        (execute_query db (gen q schema)).result = none →
        (process_question (DBMeta.available schema) gen db q).1 = PQOutcome.execFailed) := by
  refine ⟨?_, ?_, ?_, ?_⟩
  · intro db s h
    simp [execute_query, h]
  · intro s h
    simp [execute_query, h]
  · intro s h
    simp [execute_query, h]
  · intro schema gen db q h
    simp [process_question, get_database_schema, h]

/-- Witness for `execute_query_conflates_failures` on a rejected
mutating query. -/
theorem execute_query_conflates_failures_witness :
    (execute_query (fun _ => DBOutcome.rows [("c".data)] [[("1".data)]])
        ("DROP TABLE t;".data)).result = none :=
  execute_query_conflates_failures.1 _ _ (by decide)

/-- Claim C7: the example selector is a pure function of the rendered
schema text.  Whenever the lowered text contains the three fingerprint
substrings it returns the fixed two-example domain block verbatim; on
the rendered single-table `widgets` schema (which carries no full
domain fingerprint) it returns the two generic examples referencing
`widgets`: a `SELECT * ... LIMIT 10` and a COUNT query. -/
theorem get_two_shot_examples_spec :
    (∀ schema : PyStr,
        pyIn ("student_request".data) (schema.map Char.toLower) = true →
        pyIn ("ta".data) (schema.map Char.toLower) = true →
        pyIn ("person".data) (schema.map Char.toLower) = true →
        get_two_shot_examples schema =
          ("\nEXAMPLES (for reference on how to query this database):\n\nExample 1:\nQuestion: How many students are waiting for help?\nSQL: SELECT COUNT(*) as waiting_count FROM student_request sr WHERE NOT EXISTS (SELECT 1 FROM ta_response tr WHERE tr.student_request = sr.id);\nExample 2:\nQuestion: Show me the names of active TAs\nSQL: SELECT p.first_name, p.last_name FROM person p JOIN ta t ON p.byu_id = t.byu_id WHERE t.active_status = TRUE;".data))
    ∧ get_two_shot_examples
        ("Database Schema:\n\nTable: widgets\nColumns:\n  - id: integer (NOT NULL)\n  - name: text (NULL)\n\n".data) =
        ("\nEXAMPLES (for reference on how to query this database):\n\nExample 1:\nQuestion: Show all records from widgets\nSQL: SELECT * FROM widgets LIMIT 10;\nExample 2:\nQuestion: How many records are in widgets?\nSQL: SELECT COUNT(*) as record_count FROM widgets;".data) := by
  constructor
  · intro schema h1 h2 h3
    simp only [get_two_shot_examples, h1, h2, h3, Bool.and_self, if_true]
    decide
  · decide

/-- Witness for `get_two_shot_examples_spec` on a schema text carrying
the full domain fingerprint. -/
theorem get_two_shot_examples_spec_witness :
    get_two_shot_examples ("student_request ta person".data) =
      ("\nEXAMPLES (for reference on how to query this database):\n\nExample 1:\nQuestion: How many students are waiting for help?\nSQL: SELECT COUNT(*) as waiting_count FROM student_request sr WHERE NOT EXISTS (SELECT 1 FROM ta_response tr WHERE tr.student_request = sr.id);\nExample 2:\nQuestion: Show me the names of active TAs\nSQL: SELECT p.first_name, p.last_name FROM person p JOIN ta t ON p.byu_id = t.byu_id WHERE t.active_status = TRUE;".data) :=
  get_two_shot_examples_spec.1 _ (by decide) (by decide) (by decide)

/-- Accumulating fold over column/value pairs equals the accumulator
followed by the flattened per-pair lines. -/
theorem pairs_foldl (l : List (PyStr × PyStr)) (acc : PyStr) :
    l.foldl (fun a cv => a ++ cv.1 ++ (": ".data) ++ cv.2 ++ ("\n".data)) acc =
      acc ++ (l.map (fun cv => cv.1 ++ (": ".data) ++ cv.2 ++ ("\n".data))).flatten := by
  induction l generalizing acc with
  | nil => simp
  | cons cv rest ih =>
    simp only [List.foldl_cons, List.map_cons, List.flatten_cons]
    rw [ih]
    simp [List.append_assoc]

/-- Accumulating fold over rows equals the accumulator followed by the
flattened newline-separated row blocks. -/
theorem rows_foldl (columns : List PyStr) (l : List (List PyStr)) (acc : PyStr) :
    l.foldl (fun formatted row =>
        (columns.zip row).foldl (fun a cv => a ++ cv.1 ++ (": ".data) ++ cv.2 ++ ("\n".data))
          (formatted ++ ("\n".data))) acc =
      acc ++ (l.map (fun row => ("\n".data) ++ rowBlock columns row)).flatten := by
  induction l generalizing acc with
  | nil => simp
  | cons row rest ih =>
    simp only [List.foldl_cons, List.map_cons, List.flatten_cons]
    rw [pairs_foldl, ih]
    simp [rowBlock, List.append_assoc]

/-- Claim C8: `format_results` returns the fixed no-results sentence on
an empty row sequence; otherwise it returns, for each row in order, a
newline-prefixed block listing `column: value` for each column in
positional order; on columns `id`, `name` with rows `(1,a)`, `(2,b)` the
blocks appear in row order separated by a blank line. -/
theorem format_results_spec :
    (∀ columns : List PyStr, format_results columns [] = ("No results found.".data))
    ∧ (∀ (columns : List PyStr) (results : List (List PyStr)), results ≠ [] →
        format_results columns results =
          (results.map (fun row => ("\n".data) ++ rowBlock columns row)).flatten)
    ∧ format_results [("id".data), ("name".data)]
        [[("1".data), ("a".data)], [("2".data), ("b".data)]] =
        ("\nid: 1\nname: a\n\nid: 2\nname: b\n".data) := by
  refine ⟨?_, ?_, by decide⟩
  · intro columns
    simp [format_results]
  · intro columns results h
    simp only [format_results, if_neg h]
    rw [rows_foldl]
    simp

/-- Witness for `format_results_spec` on a one-row result set. -/
theorem format_results_spec_witness :
    format_results [("id".data)] [[("7".data)]] =
      ([[("7".data)]].map (fun row => ("\n".data) ++ rowBlock [("id".data)] row)).flatten :=
  format_results_spec.2.1 _ _ (by decide)
